import Mathlib

/-!
Shallow embedding of `src/Python_model/FollicleFunction.py` (the coupled
follicle-growth / hormone RHS of the GynCycle model), with verified
properties of the follicle lifecycle logic, the hormone snapshot and the
growth expression.

Modelling conventions:
* Python floats are modelled as rationals (`ℚ`); `np.pi` is modelled by its
  IEEE double value as a rational constant.
* `np.exp` is modelled by an abstract function parameter `qexp : ℚ → ℚ`
  (no property of the exponential is ever needed).
* `ODE_Model_NormalCycle` (file `HormoneModel.py`, not part of the sources
  under verification) is modelled by an abstract function parameter
  `odeModel`; where a claim needs it, the spec-implied fact that it returns
  a vector of the same length as its state argument is taken as a
  hypothesis.
* The exponent parameters `Par[56]` and `parafoll[0]`, used only as
  exponents of `**`, are modelled as natural numbers.
* numpy basic slicing returns a VIEW: `x = y[:NumFollicles]` aliases `y`,
  so the statements `x[i] = 0` in the two destiny-filtering loops mutate
  `y` itself.  The embedding reproduces this through `yMut`.
* The in-place mutation of `y` and of the `Follicles` object is made
  explicit: `FollicleFunction` returns the derivative vector together with
  the final contents of `y` and of the registry.
* Python list indexing errors are totalised with default values (`getD`);
  all theorems below only exercise in-range accesses.
* The unused Python parameters `Stim` and `settings` are omitted.
-/

namespace GynCycle

/-- One follicle record, with the fields of the Python dictionaries read or
written by `FollicleFunction`: the lifecycle tag `Destiny`, the recorded
sample history `Time` and the decline start time `TimeDecrease`. -/
structure FollicleRecord where
  Destiny : ℤ
  Time : List ℚ
  TimeDecrease : ℚ
deriving DecidableEq

instance : Inhabited FollicleRecord := ⟨⟨0, [], 0⟩⟩

/-- The `Follicles` object: the record list, the 1-based indices of the
active follicles (`Follicles.Active`) and their FSH sensitivities
(`Follicles.ActiveFSHS`). -/
structure Follicles where
  Follicle : List FollicleRecord
  Active : List ℕ
  ActiveFSHS : List ℚ
deriving DecidableEq

/-- The `para` argument: `para[0]` is the mode flag (0 = normal run,
1 = test/calibration call) and `para[1]` the number of non-follicle
state-vector slots. -/
structure Para where
  para0 : ℤ
  para1 : ℕ
deriving DecidableEq

/-- The entries of the `parafoll` parameter vector read by
`FollicleFunction`, named by their Python index.  `pf0` (the crowding
exponent) is used only as an exponent and is modelled as a natural
number. -/
structure Parafoll where
  pf0 : ℕ
  pf1 : ℚ
  pf2 : ℚ
  pf3 : ℚ
  pf4 : ℚ
  pf10 : ℚ
  pf11 : ℚ
  pf12 : ℚ
  pf13 : ℚ
  pf14 : ℚ
deriving DecidableEq

/-- The entries of the `Par` parameter vector read by `FollicleFunction`,
named by their Python index.  `p56` (the Hill exponent) is used only as an
exponent and is modelled as a natural number. -/
structure Pars where
  p56 : ℕ
  p57 : ℚ
  p58 : ℚ
  p59 : ℚ
  p60 : ℚ
  p61 : ℚ
  p62 : ℚ
  p74 : ℚ
  p75 : ℚ
deriving DecidableEq

/-- The IEEE double value of `np.pi`, as a rational. -/
def piQ : ℚ := 3.141592653589793

/-- `NumFollicles = y.shape[0] - para[1]` (clamped at 0; the Python value
is positive exactly when `para.para1 < y.length`). -/
def numFollicles (y : List ℚ) (para : Para) : ℕ := y.length - para.para1

/-- The record referenced by the loop index `i`:
`Follicles.Follicle[Follicles.Active[i]-1]`. -/
def recAt (F : Follicles) (i : ℕ) : FollicleRecord :=
  F.Follicle.getD (F.Active.getD i 0 - 1) default

/-- First filtering loop: `x[i] = 0` for every active follicle whose
`Destiny` is `-2` or `-3`.  Since `x` is a view of `y`, this zeroes the
corresponding slot of `y`. -/
def zeroDeadFollicles (N : ℕ) (F : Follicles) (y : List ℚ) : List ℚ :=
  y.mapIdx fun i v =>
    if i < N ∧ ((recAt F i).Destiny = -2 ∨ (recAt F i).Destiny = -3) then 0 else v

/-- Second filtering loop: `x[i] = 0` for every active follicle whose
`Destiny` is `4`. -/
def zeroOvulatedFollicles (N : ℕ) (F : Follicles) (y : List ℚ) : List ℚ :=
  y.mapIdx fun i v => if i < N ∧ (recAt F i).Destiny = 4 then 0 else v

/-- The contents of `y` after the two (guarded) filtering loops ran through
the `x = y[:NumFollicles]` view. -/
def yMut (y : List ℚ) (para : Para) (F : Follicles) : List ℚ :=
  let N := numFollicles y para
  let y1 := if 0 < N ∧ para.para0 = 0 then zeroDeadFollicles N F y else y
  if 0 < N ∧ para.para0 = 0 then zeroOvulatedFollicles N F y1 else y1

/-- The vector `x` as it stands at the aggregation step: the first
`NumFollicles` slots of the (possibly zero-filtered) state vector, or the
singleton `[0]` when there is no active follicle. -/
def xVec (y : List ℚ) (para : Para) (F : Follicles) : List ℚ :=
  if 0 < numFollicles y para then (yMut y para F).take (numFollicles y para) else [0]

/-- `SF = np.pi * np.sum((x ** Par[56]) / (x ** Par[56] + Par[57] ** Par[56]) * (x ** 2))`. -/
def SFof (x : List ℚ) (Par : Pars) : ℚ :=
  piQ * (x.map fun v => v ^ Par.p56 / (v ^ Par.p56 + Par.p57 ^ Par.p56) * v ^ 2).sum

/-- `E2_lvl = Par[74] + (Par[58] + Par[59]*SF) + Par[60]*exp(-Par[61]*(t-(Tovu+7))**2)`. -/
def E2level (qexp : ℚ → ℚ) (t Tovu SF : ℚ) (Par : Pars) : ℚ :=
  Par.p74 + (Par.p58 + Par.p59 * SF) + Par.p60 * qexp (-Par.p61 * (t - (Tovu + 7)) ^ 2)

/-- `P4_lvl = Par[75] + Par[62]*exp(-Par[61]*(t-(Tovu+7))**2)`. -/
def P4level (qexp : ℚ → ℚ) (t Tovu : ℚ) (Par : Pars) : ℚ :=
  Par.p75 + Par.p62 * qexp (-Par.p61 * (t - (Tovu + 7)) ^ 2)

/-- Python indexing `l[i]` with a possibly negative index (used for
`y[r-15]`); out-of-range reads are totalised to `0`. -/
def pyGet (l : List ℚ) (i : ℤ) : ℚ :=
  if 0 ≤ i then l.getD i.toNat 0 else l.getD (l.length - (-i).toNat) 0

/-- `SumV = np.sum(x ** parafoll[0])`. -/
def sumVof (x : List ℚ) (parafoll : Parafoll) : ℚ :=
  (x.map fun v => v ^ parafoll.pf0).sum

/-- `gamma = parafoll[1]*((1/(1+(p4all/3)**3)) + (fshrezcomp**5)/(0.95**5+fshrezcomp**5))`. -/
def gammaOf (parafoll : Parafoll) (p4all fshrezcomp : ℚ) : ℚ :=
  parafoll.pf1 *
    (1 / (1 + (p4all / 3) ^ 3) + fshrezcomp ^ 5 / ((0.95 : ℚ) ^ 5 + fshrezcomp ^ 5))

/-- `kappa = parafoll[4]*(0.55**10/(0.55**10+fshrezcomp**10))`. -/
def kappaOf (parafoll : Parafoll) (fshrezcomp : ℚ) : ℚ :=
  parafoll.pf4 * ((0.55 : ℚ) ^ 10 / ((0.55 : ℚ) ^ 10 + fshrezcomp ^ 10))

/-- `ffsh = (fshrezcomp**4)/(fshrezcomp**4 + fFSH**4)`. -/
def ffshOf (fshrezcomp fFSH : ℚ) : ℚ :=
  fshrezcomp ^ 4 / (fshrezcomp ^ 4 + fFSH ^ 4)

/-- The raw growth expression
`X = ffsh*(xi-fsize)*fsize*(gamma - kappa*(SumV - parafoll[3]*(fsize**parafoll[0])))`. -/
def Xof (parafoll : Parafoll) (fshrezcomp p4all SumV fFSH fsize : ℚ) : ℚ :=
  ffshOf fshrezcomp fFSH * (parafoll.pf2 - fsize) * fsize *
    (gammaOf parafoll p4all fshrezcomp -
      kappaOf parafoll fshrezcomp * (SumV - parafoll.pf3 * fsize ^ parafoll.pf0))

/-- The six-way disjunction guarding the decline branch (source lines
67-72), for the record `fr` currently referenced by the loop index. -/
def declineCond (X t : ℚ) (fr : FollicleRecord) (parafoll : Parafoll) : Prop :=
  X ≤ parafoll.pf11 ∨
  fr.Destiny = -2 ∨
  (X ≤ parafoll.pf12 ∧ parafoll.pf14 ≤ t - fr.Time.headD 0 ∧ fr.Destiny = 3) ∨
  (X ≤ parafoll.pf12 ∧ parafoll.pf13 ≤ t - fr.Time.headD 0 ∧ fr.Destiny = -1) ∨
  (fr.Destiny = 3 ∧ parafoll.pf10 ≤ t - fr.TimeDecrease) ∨
  parafoll.pf14 < fr.Time.headD 0 - fr.Time.getLastD 0

instance (X t : ℚ) (fr : FollicleRecord) (parafoll : Parafoll) :
    Decidable (declineCond X t fr parafoll) := by
  unfold declineCond
  infer_instance

/-- One iteration of the per-follicle loop (source lines 45-88), acting on
the pair of the derivative vector under construction and the registry.
The dead local assignment `NoFoll = X` of source lines 62-64 (test mode,
nonpositive X) binds a variable that is never read and is omitted. -/
def loopBody (t fshrezcomp p4all SumV : ℚ) (y2 : List ℚ) (para : Para)
    (parafoll : Parafoll) (st : List ℚ × Follicles) (i : ℕ) : List ℚ × Follicles :=
  let f := st.1
  let F := st.2
  let fFSH := F.ActiveFSHS.getD i 0
  let fsize := y2.getD i 0
  let X := Xof parafoll fshrezcomp p4all SumV fFSH fsize
  if para.para0 = 0 then
    let k := F.Active.getD i 0 - 1
    let fr := F.Follicle.getD k default
    if declineCond X t fr parafoll then
      let fr1 := if fr.Destiny ≠ -2 then { fr with Destiny := -2, TimeDecrease := t } else fr
      (f.set i (-(0.05 : ℚ) * fsize * (t - fr1.TimeDecrease)),
        { F with Follicle := F.Follicle.set k fr1 })
    else if fr.Destiny = -3 then
      (f.set i (-1000 * fsize), F)
    else
      (f.set i X, F)
  else
    (f.set i X, F)

/-- The result of one call: the returned derivative vector `f`, and the
final contents of the (mutated-in-place) state vector `y` and `Follicles`
registry. -/
structure FFResult where
  deriv : List ℚ
  yAfter : List ℚ
  FsAfter : Follicles
deriving DecidableEq

/-- Shallow embedding of `FollicleFunction(t, y, Tovu, Follicles, para,
parafoll, Par, Stim, settings)`.  `odeModel` stands for
`ODE_Model_NormalCycle` and `qexp` for `np.exp`. -/
def FollicleFunction (odeModel : ℚ → List ℚ → Pars → ℚ → ℚ → List ℚ)
    (qexp : ℚ → ℚ) (t : ℚ) (y : List ℚ) (Tovu : ℚ) (F : Follicles)
    (para : Para) (parafoll : Parafoll) (Par : Pars) : FFResult :=
  let N := numFollicles y para
  let y2 := yMut y para F
  let x := xVec y para F
  let SF := SFof x Par
  let E2lvl := E2level qexp t Tovu SF Par
  let P4lvl := P4level qexp t Tovu Par
  let dy := odeModel t y2 Par E2lvl P4lvl
  let fshrezcomp := pyGet y2 ((y.length : ℤ) - 15)
  let SumV := sumVof x parafoll
  let res := (List.range N).foldl (loopBody t fshrezcomp P4lvl SumV y2 para parafoll) (dy, F)
  ⟨res.1, y2, res.2⟩

/-! Generic list and fold helper lemmas. -/

lemma foldl_invariant {σ ι : Type} (g : σ → ι → σ) (P : σ → Prop) :
    ∀ (l : List ι) (s : σ), P s → (∀ s2 i, i ∈ l → P s2 → P (g s2 i)) → P (l.foldl g s)
  | [], _, hs, _ => hs
  | i :: l, s, hs, hstep =>
    foldl_invariant g P l (g s i) (hstep s i (List.mem_cons_self i l) hs)
      fun s2 j hj hs2 => hstep s2 j (List.mem_cons_of_mem i hj) hs2

lemma getD_set {α : Type} (l : List α) (i j : ℕ) (a d : α) :
    (l.set i a).getD j d = if i = j ∧ j < l.length then a else l.getD j d := by
  by_cases hj : j < l.length
  · by_cases hij : i = j
    · subst hij
      rw [if_pos ⟨rfl, hj⟩, List.getD_eq_getElem _ _ (by simpa using hj)]
      exact List.getElem_set_self _
    · rw [if_neg (by tauto), List.getD_eq_getElem _ _ (by simpa using hj),
        List.getD_eq_getElem _ _ hj]
      exact List.getElem_set_ne hij _
  · rw [if_neg (by tauto), List.getD_eq_default _ _ (by simpa using Nat.le_of_not_lt hj),
      List.getD_eq_default _ _ (Nat.le_of_not_lt hj)]

lemma getD_mapIdx (f : ℕ → ℚ → ℚ) (l : List ℚ) (i : ℕ) (h : i < l.length) :
    (l.mapIdx f).getD i 0 = f i (l.getD i 0) := by
  rw [List.getD_eq_getElem _ _ (by simpa using h), List.getD_eq_getElem _ _ h]
  simp

/-! Facts about the zero-filtering of the state vector. -/

lemma length_yMut (y : List ℚ) (para : Para) (F : Follicles) :
    (yMut y para F).length = y.length := by
  unfold yMut zeroDeadFollicles zeroOvulatedFollicles
  dsimp only
  split_ifs <;> simp

/-- In test/calibration mode the two filtering loops do not run, so the
state vector is not mutated. -/
lemma yMut_of_test (y : List ℚ) (para : Para) (F : Follicles) (h : para.para0 ≠ 0) :
    yMut y para F = y := by
  unfold yMut
  simp [h]

/-- Complete characterisation of the state-vector slots after the two
filtering loops. -/
lemma getD_yMut (y : List ℚ) (para : Para) (F : Follicles) (i : ℕ) :
    (yMut y para F).getD i 0
      = if para.para0 = 0 ∧ i < numFollicles y para ∧ i < y.length ∧
          ((recAt F i).Destiny = -2 ∨ (recAt F i).Destiny = -3 ∨ (recAt F i).Destiny = 4)
        then 0 else y.getD i 0 := by
  unfold yMut
  by_cases hg : 0 < numFollicles y para ∧ para.para0 = 0
  · rw [if_pos hg, if_pos hg]
    by_cases hil : i < y.length
    · unfold zeroOvulatedFollicles
      rw [getD_mapIdx _ _ _ (by simpa [zeroDeadFollicles] using hil)]
      unfold zeroDeadFollicles
      rw [getD_mapIdx _ _ _ hil]
      by_cases hiN : i < numFollicles y para
      · rcases hg with ⟨-, h0⟩
        by_cases h2 : (recAt F i).Destiny = -2
        · simp [hiN, h2, h0, hil]
        · by_cases h3 : (recAt F i).Destiny = -3
          · simp [hiN, h3, h0, hil]
          · by_cases h4 : (recAt F i).Destiny = 4
            · simp [hiN, h2, h3, h4, h0, hil]
            · simp [h2, h3, h4]
      · simp [hiN]
    · have hge : y.length ≤ i := Nat.le_of_not_lt hil
      rw [if_neg (by tauto)]
      rw [List.getD_eq_default _ _ hge, List.getD_eq_default]
      simp only [zeroOvulatedFollicles, zeroDeadFollicles]
      simpa using hge
  · rw [if_neg hg, if_neg hg, if_neg]
    rcases Nat.eq_zero_or_pos (numFollicles y para) with h | h
    · omega
    · tauto

lemma xVec_of_test (y : List ℚ) (para : Para) (F : Follicles)
    (h : para.para0 ≠ 0) (hN : 0 < numFollicles y para) :
    xVec y para F = y.take (numFollicles y para) := by
  unfold xVec
  rw [if_pos hN, yMut_of_test y para F h]

lemma xVec_of_empty (y : List ℚ) (para : Para) (F : Follicles)
    (h : numFollicles y para = 0) : xVec y para F = [0] := by
  unfold xVec
  rw [if_neg (by omega)]

/-! Facts about the per-follicle loop. -/

lemma loopBody_fst_length (t fz p4 SV : ℚ) (y2 : List ℚ) (para : Para) (pf : Parafoll)
    (st : List ℚ × Follicles) (i : ℕ) :
    ((loopBody t fz p4 SV y2 para pf st i).1).length = st.1.length := by
  simp only [loopBody]
  split_ifs <;> simp

lemma loopBody_fst_getD_ne (t fz p4 SV : ℚ) (y2 : List ℚ) (para : Para) (pf : Parafoll)
    (st : List ℚ × Follicles) (i j : ℕ) (hne : j ≠ i) :
    ((loopBody t fz p4 SV y2 para pf st i).1).getD j 0 = st.1.getD j 0 := by
  simp only [loopBody]
  split_ifs <;> (rw [getD_set, if_neg]; tauto)

lemma loopBody_of_test (t fz p4 SV : ℚ) (y2 : List ℚ) (para : Para) (pf : Parafoll)
    (st : List ℚ × Follicles) (i : ℕ) (h : para.para0 ≠ 0) :
    loopBody t fz p4 SV y2 para pf st i
      = (st.1.set i (Xof pf fz p4 SV (st.2.ActiveFSHS.getD i 0) (y2.getD i 0)), st.2) := by
  simp only [loopBody]
  rw [if_neg h]

lemma foldl_loopBody_length (t fz p4 SV : ℚ) (y2 : List ℚ) (para : Para) (pf : Parafoll)
    (N : ℕ) (st0 : List ℚ × Follicles) :
    (((List.range N).foldl (loopBody t fz p4 SV y2 para pf) st0).1).length = st0.1.length := by
  apply foldl_invariant (loopBody t fz p4 SV y2 para pf) (fun st => st.1.length = st0.1.length)
  · rfl
  · intro st i _ hst
    rw [loopBody_fst_length, hst]

lemma foldl_loopBody_slot_ge (t fz p4 SV : ℚ) (y2 : List ℚ) (para : Para) (pf : Parafoll)
    (N j : ℕ) (st0 : List ℚ × Follicles) (hj : N ≤ j) :
    (((List.range N).foldl (loopBody t fz p4 SV y2 para pf) st0).1).getD j 0
      = st0.1.getD j 0 := by
  apply foldl_invariant (loopBody t fz p4 SV y2 para pf)
    (fun st => st.1.getD j 0 = st0.1.getD j 0)
  · rfl
  · intro st i hi hst
    have hlt : i < N := List.mem_range.mp hi
    rw [loopBody_fst_getD_ne _ _ _ _ _ _ _ _ _ _ (by omega), hst]

/-- Slot `i` of the final derivative vector is whatever the iteration for
index `i` wrote there. -/
lemma foldl_loopBody_slot (t fz p4 SV : ℚ) (y2 : List ℚ) (para : Para) (pf : Parafoll)
    (N i : ℕ) (st0 : List ℚ × Follicles) (hi : i < N) :
    (((List.range N).foldl (loopBody t fz p4 SV y2 para pf) st0).1).getD i 0
      = ((loopBody t fz p4 SV y2 para pf
          ((List.range i).foldl (loopBody t fz p4 SV y2 para pf) st0) i).1).getD i 0 := by
  induction N with
  | zero => omega
  | succ n ih =>
    rw [List.range_succ, List.foldl_append]
    simp only [List.foldl_cons, List.foldl_nil]
    rcases Nat.lt_succ_iff_lt_or_eq.mp hi with h | h
    · rw [loopBody_fst_getD_ne _ _ _ _ _ _ _ _ _ _ (by omega), ih h]
    · subst h
      rfl

lemma foldl_loopBody_snd_test (t fz p4 SV : ℚ) (y2 : List ℚ) (para : Para) (pf : Parafoll)
    (N : ℕ) (st0 : List ℚ × Follicles) (h : para.para0 ≠ 0) :
    (((List.range N).foldl (loopBody t fz p4 SV y2 para pf) st0).2) = st0.2 := by
  apply foldl_invariant (loopBody t fz p4 SV y2 para pf) (fun st => st.2 = st0.2)
  · rfl
  · intro st i _ hst
    rw [loopBody_of_test _ _ _ _ _ _ _ _ _ h]
    exact hst

/-! Definitions following the wording of the specification, used to compare
the code against the claimed formulas. -/

/-- Following the spec wording: the Hill-type saturating function of size,
with exponent and half-saturation constant taken from the parameter set. -/
def hillOf (Par : Pars) (s : ℚ) : ℚ := s ^ Par.p56 / (s ^ Par.p56 + Par.p57 ^ Par.p56)

/-- Following the spec wording: a Gaussian bump of amplitude `amp` and
width constant `width`, centered at `center`. -/
def gaussianBump (qexp : ℚ → ℚ) (amp width center t : ℚ) : ℚ :=
  amp * qexp (-width * (t - center) ^ 2)

/-- Following the wording of claim C2: the growth expression in which the
competition penalty removes exactly the own contribution `size ^ p` of the
follicle (no `parafoll[3]` scaling). -/
def XspecC2 (parafoll : Parafoll) (fshrezcomp p4all SumV fFSH fsize : ℚ) : ℚ :=
  ffshOf fshrezcomp fFSH * (parafoll.pf2 - fsize) * fsize *
    (gammaOf parafoll p4all fshrezcomp -
      kappaOf parafoll fshrezcomp * (SumV - fsize ^ parafoll.pf0))

/-! Concrete instances used by counterexamples and witnesses. -/

/-- A stand-in for the hormone/pituitary model: every derivative slot 9. -/
def odeNine : ℚ → List ℚ → Pars → ℚ → ℚ → List ℚ := fun _ yy _ _ _ => yy.map fun _ => 9

/-- A stand-in for the exponential: constantly 1. -/
def expOne : ℚ → ℚ := fun _ => 1

/-- A 16-slot state vector: one follicle of size 2 and 15 hormone slots. -/
def yEx : List ℚ := 2 :: List.replicate 15 1

/-- Normal mode, 15 non-follicle slots. -/
def paraN : Para := ⟨0, 15⟩

/-- Test/calibration mode, 15 non-follicle slots. -/
def paraT : Para := ⟨1, 15⟩

/-- A parameter vector with all relevant entries 1. -/
def parsEx : Pars := ⟨1, 1, 1, 1, 1, 1, 1, 1, 1⟩

/-- Follicle parameters with both growth thresholds 0. -/
def pfEx : Parafoll := ⟨1, 1, 10, 1, 1, 1, 0, 0, 1, 1⟩

/-- Follicle parameters with negative growth thresholds and a large
stagnation span, so that a zero growth expression does not fire the
decline condition. -/
def pfNeg : Parafoll := ⟨1, 1, 10, 1, 1, 1, -1, -1, 1, 100⟩

/-- Follicle parameters with an own-share scaling `parafoll[3] = 2`. -/
def pfC2 : Parafoll := ⟨1, 1, 10, 2, 1, 1, -1, -1, 1, 100⟩

/-- Follicle parameters with a large lower growth threshold, so that the
decline condition fires even for a healthy growth expression. -/
def pfBig : Parafoll := ⟨1, 1, 10, 1, 1, 1, 1000, 0, 1, 100⟩

/-- A registry with one growing follicle. -/
def FsGrow : Follicles := ⟨[⟨1, [0], 0⟩], [1], [1]⟩

/-- A registry with one follicle marked for decline at time 10. -/
def FsDecl : Follicles := ⟨[⟨-2, [0], 10⟩], [1], [1]⟩

/-- A registry with one atretic follicle. -/
def FsAtr : Follicles := ⟨[⟨-3, [0], 0⟩], [1], [1]⟩

/-! Claim C4: shape of the hormone snapshot. -/

/-- C4: the hormone snapshot is `E2 = baseline + linear(SF) + Gaussian
bump centered at Tovu + 7` and `P4 = baseline + only the Gaussian bump`,
with `SF = pi` times the sum of the Hill-type saturating function of size
times size squared over the contributing follicle sizes. -/
theorem ffq_C4_hormones (qexp : ℚ → ℚ) (t Tovu : ℚ) (x : List ℚ) (Par : Pars) :
    SFof x Par = piQ * (x.map fun s => hillOf Par s * s ^ 2).sum ∧
    E2level qexp t Tovu (SFof x Par) Par
      = Par.p74 + (Par.p58 + Par.p59 * SFof x Par)
        + gaussianBump qexp Par.p60 Par.p61 (Tovu + 7) t ∧
    P4level qexp t Tovu Par
      = Par.p75 + gaussianBump qexp Par.p62 Par.p61 (Tovu + 7) t := by
  refine ⟨rfl, ?_, ?_⟩ <;> rfl

/-! Claim C9: empty active set gives baseline-only hormone levels. -/

/-- C9: with no active follicle the aggregate signal `SF` is zero and the
hormone levels carry no follicle contribution, only the baselines and the
Gaussian bump terms. -/
theorem ffq_C9_empty (qexp : ℚ → ℚ) (t Tovu : ℚ) (y : List ℚ) (para : Para)
    (F : Follicles) (Par : Pars) (h : y.length ≤ para.para1) :
    SFof (xVec y para F) Par = 0 ∧
    E2level qexp t Tovu (SFof (xVec y para F) Par) Par
      = Par.p74 + Par.p58 + gaussianBump qexp Par.p60 Par.p61 (Tovu + 7) t ∧
    P4level qexp t Tovu Par
      = Par.p75 + gaussianBump qexp Par.p62 Par.p61 (Tovu + 7) t := by
  have hN : numFollicles y para = 0 := by
    unfold numFollicles
    omega
  have hSF : SFof (xVec y para F) Par = 0 := by
    rw [xVec_of_empty y para F hN]
    unfold SFof
    norm_num
  refine ⟨hSF, ?_, rfl⟩
  rw [hSF]
  unfold E2level gaussianBump
  ring

/-- Witness for C9 at a concrete empty input. -/
theorem ffq_C9_empty_witness :
    SFof (xVec [] ⟨0, 0⟩ FsGrow) parsEx = 0 ∧
    E2level expOne 3 1 (SFof (xVec [] ⟨0, 0⟩ FsGrow) parsEx) parsEx
      = parsEx.p74 + parsEx.p58 + gaussianBump expOne parsEx.p60 parsEx.p61 (1 + 7) 3 ∧
    P4level expOne 3 1 parsEx
      = parsEx.p75 + gaussianBump expOne parsEx.p62 parsEx.p61 (1 + 7) 3 :=
  ffq_C9_empty expOne 3 1 [] ⟨0, 0⟩ FsGrow parsEx (by simp)

/-! Claim C7: the stagnation/reversal guard of the decline condition. -/

/-- C7: the decline condition of `FollicleFunction` is the disjunction of
the rate/age clauses with a stagnation guard that holds exactly when the
newest recorded sample of the follicle record is smaller than its oldest
recorded sample by more than the span `parafoll[14]`; when the samples
never decreased by more than that span, the guard contributes nothing and
the condition reduces to the other five clauses. -/
theorem ffq_C7_stagnation (X t : ℚ) (fr : FollicleRecord) (pf : Parafoll) :
    (declineCond X t fr pf ↔
      (X ≤ pf.pf11 ∨ fr.Destiny = -2 ∨
       (X ≤ pf.pf12 ∧ pf.pf14 ≤ t - fr.Time.headD 0 ∧ fr.Destiny = 3) ∨
       (X ≤ pf.pf12 ∧ pf.pf13 ≤ t - fr.Time.headD 0 ∧ fr.Destiny = -1) ∨
       (fr.Destiny = 3 ∧ pf.pf10 ≤ t - fr.TimeDecrease) ∨
       fr.Time.getLastD 0 < fr.Time.headD 0 - pf.pf14)) ∧
    (fr.Time.headD 0 - fr.Time.getLastD 0 ≤ pf.pf14 →
      (declineCond X t fr pf ↔
        (X ≤ pf.pf11 ∨ fr.Destiny = -2 ∨
         (X ≤ pf.pf12 ∧ pf.pf14 ≤ t - fr.Time.headD 0 ∧ fr.Destiny = 3) ∨
         (X ≤ pf.pf12 ∧ pf.pf13 ≤ t - fr.Time.headD 0 ∧ fr.Destiny = -1) ∨
         (fr.Destiny = 3 ∧ pf.pf10 ≤ t - fr.TimeDecrease)))) := by
  have hg : pf.pf14 < fr.Time.headD 0 - fr.Time.getLastD 0 ↔
      fr.Time.getLastD 0 < fr.Time.headD 0 - pf.pf14 :=
    ⟨fun a => by linarith, fun a => by linarith⟩
  constructor
  · unfold declineCond
    rw [hg]
  · intro hspan
    unfold declineCond
    have h6 : ¬ pf.pf14 < fr.Time.headD 0 - fr.Time.getLastD 0 := by linarith
    simp only [h6, or_false]

/-- Witness for C7 at a concrete record whose samples decreased by less
than the span: the condition is decided by the five other clauses alone. -/
theorem ffq_C7_stagnation_witness :
    declineCond 1 15 ⟨1, [4, 3], 0⟩ pfNeg ↔
      ((1 : ℚ) ≤ pfNeg.pf11 ∨ (⟨1, [4, 3], 0⟩ : FollicleRecord).Destiny = -2 ∨
       ((1 : ℚ) ≤ pfNeg.pf12 ∧ pfNeg.pf14 ≤ 15 - (⟨1, [4, 3], 0⟩ : FollicleRecord).Time.headD 0 ∧
         (⟨1, [4, 3], 0⟩ : FollicleRecord).Destiny = 3) ∨
       ((1 : ℚ) ≤ pfNeg.pf12 ∧ pfNeg.pf13 ≤ 15 - (⟨1, [4, 3], 0⟩ : FollicleRecord).Time.headD 0 ∧
         (⟨1, [4, 3], 0⟩ : FollicleRecord).Destiny = -1) ∨
       ((⟨1, [4, 3], 0⟩ : FollicleRecord).Destiny = 3 ∧
         pfNeg.pf10 ≤ 15 - (⟨1, [4, 3], 0⟩ : FollicleRecord).TimeDecrease)) :=
  (ffq_C7_stagnation 1 15 ⟨1, [4, 3], 0⟩ pfNeg).2 (by norm_num [pfNeg])

/-! Claim C10: length of the derivative vector and the non-follicle tail. -/

/-- C10: the returned derivative vector has the length of the input state
vector, and every slot at or beyond the number of active follicles equals
the corresponding component of the hormone/pituitary model derivative;
only the leading follicle slots are overwritten. -/
theorem ffq_C10_tail (odeModel : ℚ → List ℚ → Pars → ℚ → ℚ → List ℚ) (qexp : ℚ → ℚ)
    (t : ℚ) (y : List ℚ) (Tovu : ℚ) (F : Follicles) (para : Para) (parafoll : Parafoll)
    (Par : Pars)
    (hlen : ∀ t2 yy P e2 p4, (odeModel t2 yy P e2 p4).length = yy.length) :
    ((FollicleFunction odeModel qexp t y Tovu F para parafoll Par).deriv).length = y.length ∧
    ∀ j, numFollicles y para ≤ j →
      (FollicleFunction odeModel qexp t y Tovu F para parafoll Par).deriv.getD j 0
        = (odeModel t (yMut y para F) Par
            (E2level qexp t Tovu (SFof (xVec y para F) Par) Par)
            (P4level qexp t Tovu Par)).getD j 0 := by
  unfold FollicleFunction
  dsimp only
  constructor
  · rw [foldl_loopBody_length, hlen, length_yMut]
  · intro j hj
    exact foldl_loopBody_slot_ge _ _ _ _ _ _ _ _ _ _ hj

/-- Witness for C10 at a concrete normal-mode call. -/
theorem ffq_C10_tail_witness :
    ((FollicleFunction odeNine expOne 15 yEx 0 FsGrow paraN pfNeg parsEx).deriv).length
      = yEx.length ∧
    ∀ j, numFollicles yEx paraN ≤ j →
      (FollicleFunction odeNine expOne 15 yEx 0 FsGrow paraN pfNeg parsEx).deriv.getD j 0
        = (odeNine 15 (yMut yEx paraN FsGrow) parsEx
            (E2level expOne 15 0 (SFof (xVec yEx paraN FsGrow) parsEx) parsEx)
            (P4level expOne 15 0 parsEx)).getD j 0 :=
  ffq_C10_tail odeNine expOne 15 yEx 0 FsGrow paraN pfNeg parsEx
    (fun t2 yy P e2 p4 => by simp [odeNine])

/-! Claim C2: the raw growth expression, corrected own-share scaling. -/

/-- C2 (amended): in test/calibration mode every active slot of the
returned derivative vector is the raw growth expression
`ffsh * (xi - size) * size * (gamma - kappa * (SumV - parafoll[3] * size ^ p))`,
where `SumV` sums `size ^ p` over the active slots, `gamma` is the
P4-inhibited, FSH-excited rate, `kappa` the decreasing sigmoid in the FSH
residual, and `ffsh` the sigmoid of the FSH residual against the own FSH
sensitivity of the follicle; the own-share term carries the configured
scaling `parafoll[3]`, not the bare own contribution. -/
theorem ffq_C2_rawGrowth (odeModel : ℚ → List ℚ → Pars → ℚ → ℚ → List ℚ) (qexp : ℚ → ℚ)
    (t : ℚ) (y : List ℚ) (Tovu : ℚ) (F : Follicles) (para : Para) (parafoll : Parafoll)
    (Par : Pars) (i : ℕ) (hmode : para.para0 = 1)
    (hlen : ∀ t2 yy P e2 p4, (odeModel t2 yy P e2 p4).length = yy.length)
    (hi : i < numFollicles y para) :
    (FollicleFunction odeModel qexp t y Tovu F para parafoll Par).deriv.getD i 0
      = ffshOf (pyGet y ((y.length : ℤ) - 15)) (F.ActiveFSHS.getD i 0)
          * (parafoll.pf2 - y.getD i 0) * y.getD i 0
          * (gammaOf parafoll (P4level qexp t Tovu Par) (pyGet y ((y.length : ℤ) - 15))
             - kappaOf parafoll (pyGet y ((y.length : ℤ) - 15))
               * (sumVof (y.take (numFollicles y para)) parafoll
                  - parafoll.pf3 * (y.getD i 0) ^ parafoll.pf0)) := by
  have hmode0 : para.para0 ≠ 0 := by rw [hmode]; decide
  have hNy : numFollicles y para ≤ y.length := Nat.sub_le _ _
  unfold FollicleFunction
  dsimp only
  rw [foldl_loopBody_slot _ _ _ _ _ _ _ _ _ _ hi,
    loopBody_of_test _ _ _ _ _ _ _ _ _ hmode0,
    foldl_loopBody_snd_test _ _ _ _ _ _ _ _ _ hmode0]
  dsimp only
  rw [getD_set, if_pos]
  · rw [yMut_of_test _ _ _ hmode0, xVec_of_test _ _ _ hmode0 (by omega)]
    unfold Xof
    rfl
  · refine ⟨rfl, ?_⟩
    rw [foldl_loopBody_length]
    dsimp only
    rw [hlen, length_yMut]
    omega

/-- C2 (counterexample): with own-share scaling `parafoll[3] = 2`, the
test-mode derivative slot produced by `FollicleFunction` differs from the
growth expression as worded in the claim, which removes exactly the own
contribution `size ^ p` from the competition penalty. -/
theorem ffq_C2_counterexample :
    (FollicleFunction odeNine expOne 15 yEx 0 FsGrow paraT pfC2 parsEx).deriv.getD 0 0
      ≠ XspecC2 pfC2 (pyGet yEx ((yEx.length : ℤ) - 15)) (P4level expOne 15 0 parsEx)
          (sumVof (yEx.take (numFollicles yEx paraT)) pfC2)
          (FsGrow.ActiveFSHS.getD 0 0) (yEx.getD 0 0) := by
  norm_num [FollicleFunction, numFollicles, yMut, zeroDeadFollicles, zeroOvulatedFollicles,
    recAt, xVec, pyGet, sumVof, loopBody, Xof, XspecC2, ffshOf, gammaOf, kappaOf,
    declineCond, P4level, E2level, SFof, piQ, yEx, paraT, pfC2, parsEx, FsGrow,
    odeNine, expOne, List.range_succ, List.mapIdx_cons, List.mapIdx_nil, List.replicate]

/-- Witness for C2 (amended) at a concrete test-mode call. -/
theorem ffq_C2_rawGrowth_witness :
    (FollicleFunction odeNine expOne 15 yEx 0 FsGrow paraT pfC2 parsEx).deriv.getD 0 0
      = ffshOf (pyGet yEx ((yEx.length : ℤ) - 15)) (FsGrow.ActiveFSHS.getD 0 0)
          * (pfC2.pf2 - yEx.getD 0 0) * yEx.getD 0 0
          * (gammaOf pfC2 (P4level expOne 15 0 parsEx) (pyGet yEx ((yEx.length : ℤ) - 15))
             - kappaOf pfC2 (pyGet yEx ((yEx.length : ℤ) - 15))
               * (sumVof (yEx.take (numFollicles yEx paraT)) pfC2
                  - pfC2.pf3 * (yEx.getD 0 0) ^ pfC2.pf0)) :=
  ffq_C2_rawGrowth odeNine expOne 15 yEx 0 FsGrow paraT pfC2 parsEx 0 rfl
    (fun t2 yy P e2 p4 => by simp [odeNine]) (by decide)

/-- The growth expression vanishes for a zero-size slot. -/
lemma Xof_sizeZero (pf : Parafoll) (fz p4 SV fFSH : ℚ) : Xof pf fz p4 SV fFSH 0 = 0 := by
  unfold Xof
  ring

/-- Whatever branch the loop takes, a zero-size slot receives a zero
derivative. -/
lemma loopBody_fst_getD_self_zero (t fz p4 SV : ℚ) (y2 : List ℚ) (para : Para)
    (pf : Parafoll) (st : List ℚ × Follicles) (i : ℕ)
    (h0 : y2.getD i 0 = 0) (hil : i < st.1.length) :
    ((loopBody t fz p4 SV y2 para pf st i).1).getD i 0 = 0 := by
  simp only [loopBody]
  rw [h0]
  split_ifs <;> (rw [getD_set, if_pos ⟨rfl, hil⟩]) <;> simp [Xof_sizeZero]

/-! Claim C6: derivative of a follicle that is atretic at entry. -/

/-- C6 (counterexample): an atretic follicle of entry size 2 gets slot
derivative 0, not `-1000 * 2`: the slice-view zeroing has already erased
its size when the annihilation formula reads it. -/
theorem ffq_C6_counterexample :
    (FollicleFunction odeNine expOne 15 yEx 0 FsAtr paraN pfNeg parsEx).deriv.getD 0 0 = 0 ∧
    (FollicleFunction odeNine expOne 15 yEx 0 FsAtr paraN pfNeg parsEx).deriv.getD 0 0
      ≠ -1000 * yEx.getD 0 0 := by
  norm_num [FollicleFunction, numFollicles, yMut, zeroDeadFollicles, zeroOvulatedFollicles,
    recAt, xVec, pyGet, sumVof, loopBody, Xof, ffshOf, gammaOf, kappaOf, declineCond,
    yEx, paraN, pfNeg, parsEx, FsAtr, odeNine, expOne,
    List.range_succ, List.mapIdx_cons, List.mapIdx_nil, List.replicate]

/-- C6 (amended): in normal mode the slot of a follicle that is atretic at
entry is exactly 0 in the returned derivative vector — its state slot is
zeroed through the slice view before any growth or annihilation formula
reads it, so `-1000 * size` (or the decline override) evaluates to 0. -/
theorem ffq_C6_atreticZero (odeModel : ℚ → List ℚ → Pars → ℚ → ℚ → List ℚ) (qexp : ℚ → ℚ)
    (t : ℚ) (y : List ℚ) (Tovu : ℚ) (F : Follicles) (para : Para) (parafoll : Parafoll)
    (Par : Pars) (i : ℕ) (hmode : para.para0 = 0) (hi : i < numFollicles y para)
    (hD : (recAt F i).Destiny = -3)
    (hlen : ∀ t2 yy P e2 p4, (odeModel t2 yy P e2 p4).length = yy.length) :
    (FollicleFunction odeModel qexp t y Tovu F para parafoll Par).deriv.getD i 0 = 0 := by
  have hNy : numFollicles y para ≤ y.length := Nat.sub_le _ _
  have hzero : (yMut y para F).getD i 0 = 0 := by
    rw [getD_yMut, if_pos ⟨hmode, hi, by omega, Or.inr (Or.inl hD)⟩]
  unfold FollicleFunction
  dsimp only
  rw [foldl_loopBody_slot _ _ _ _ _ _ _ _ _ _ hi]
  apply loopBody_fst_getD_self_zero _ _ _ _ _ _ _ _ _ hzero
  rw [foldl_loopBody_length]
  dsimp only
  rw [hlen, length_yMut]
  omega

/-- Witness for C6 (amended) at a concrete atretic follicle. -/
theorem ffq_C6_atreticZero_witness :
    (FollicleFunction odeNine expOne 7 yEx 0 FsAtr paraN pfEx parsEx).deriv.getD 0 0 = 0 :=
  ffq_C6_atreticZero odeNine expOne 7 yEx 0 FsAtr paraN pfEx parsEx 0 rfl (by decide)
    (by decide) (fun t2 yy P e2 p4 => by simp [odeNine])

/-! Claim C5: derivative of a follicle already marked for decline. -/

/-- C5: a follicle already marked for decline (destiny -2, decline start
10) of entry size 2, evaluated at t = 15, gets slot derivative 0 — not the
documented `-0.05 * size * (t - declineStartTime) = -1/2` — because the
slice-view zeroing erases its size before the decline formula reads it.
The conjuncts record the returned derivative, the mutated state slot, the
entry size, the recorded decline start, and the value the decline formula
would give on the entry size. -/
theorem ffq_C5_declineEval :
    (FollicleFunction odeNine expOne 15 yEx 0 FsDecl paraN pfNeg parsEx).deriv.getD 0 0 = 0 ∧
    (FollicleFunction odeNine expOne 15 yEx 0 FsDecl paraN pfNeg parsEx).yAfter.getD 0 0 = 0 ∧
    yEx.getD 0 0 = 2 ∧
    (FsDecl.Follicle.getD 0 default).TimeDecrease = 10 ∧
    -(0.05 : ℚ) * yEx.getD 0 0 * (15 - (FsDecl.Follicle.getD 0 default).TimeDecrease)
      = -(1/2) := by
  norm_num [FollicleFunction, numFollicles, yMut, zeroDeadFollicles, zeroOvulatedFollicles,
    recAt, xVec, pyGet, sumVof, loopBody, Xof, ffshOf, gammaOf, kappaOf, declineCond,
    yEx, paraN, pfNeg, parsEx, FsDecl, odeNine, expOne,
    List.range_succ, List.mapIdx_cons, List.mapIdx_nil, List.replicate]

/-! Claim C3: stickiness of the atretic state. -/

/-- C3 (counterexample): with a zero lower growth threshold, a follicle
that is atretic (-3) at entry is re-marked for decline (-2) by the very
next evaluation: its zeroed slot makes the growth expression 0, which
fires `X <= parafoll[11]`, and the guard on the marking only excludes
destiny -2, not -3. -/
theorem ffq_C3_counterexample :
    ((FollicleFunction odeNine expOne 15 yEx 0 FsAtr paraN pfEx
        parsEx).FsAfter.Follicle.getD 0 default).Destiny = -2 ∧
    (FsAtr.Follicle.getD 0 default).Destiny = -3 := by
  norm_num [FollicleFunction, numFollicles, yMut, zeroDeadFollicles, zeroOvulatedFollicles,
    recAt, xVec, pyGet, sumVof, loopBody, Xof, ffshOf, gammaOf, kappaOf, declineCond,
    yEx, paraN, pfEx, parsEx, FsAtr, odeNine, expOne,
    List.range_succ, List.mapIdx_cons, List.mapIdx_nil, List.replicate]

/-- C3 (amended): an atretic record is left untouched by an evaluation
provided the decline condition cannot fire for it, namely when the lower
growth threshold `parafoll[11]` is negative (so the zeroed growth
expression does not reach it) and the recorded samples of the follicle
never decreased by more than the stagnation span `parafoll[14]`. -/
theorem ffq_C3_atreticSticky (odeModel : ℚ → List ℚ → Pars → ℚ → ℚ → List ℚ)
    (qexp : ℚ → ℚ) (t : ℚ) (y : List ℚ) (Tovu : ℚ) (F : Follicles) (para : Para)
    (parafoll : Parafoll) (Par : Pars) (k : ℕ)
    (hD : (F.Follicle.getD k default).Destiny = -3)
    (h11 : parafoll.pf11 < 0)
    (hspan : (F.Follicle.getD k default).Time.headD 0
        - (F.Follicle.getD k default).Time.getLastD 0 ≤ parafoll.pf14) :
    (FollicleFunction odeModel qexp t y Tovu F para parafoll
        Par).FsAfter.Follicle.getD k default = F.Follicle.getD k default := by
  have hNy : numFollicles y para ≤ y.length := Nat.sub_le _ _
  unfold FollicleFunction
  dsimp only
  have hinv := foldl_invariant
    (loopBody t (pyGet (yMut y para F) ((y.length : ℤ) - 15)) (P4level qexp t Tovu Par)
      (sumVof (xVec y para F) parafoll) (yMut y para F) para parafoll)
    (fun st => st.2.Active = F.Active ∧
      st.2.Follicle.getD k default = F.Follicle.getD k default)
    (List.range (numFollicles y para))
    (odeModel t (yMut y para F) Par
        (E2level qexp t Tovu (SFof (xVec y para F) Par) Par) (P4level qexp t Tovu Par), F)
    ⟨rfl, rfl⟩ ?_
  · exact hinv.2
  · intro st i hi hst
    obtain ⟨hA, hK⟩ := hst
    by_cases hp : para.para0 = 0
    · simp only [loopBody]
      rw [if_pos hp]
      by_cases hk : st.2.Active.getD i 0 - 1 = k
      · have hkF : F.Active.getD i 0 - 1 = k := by
          rw [← hA]
          exact hk
        have hfr : st.2.Follicle.getD (st.2.Active.getD i 0 - 1) default
            = F.Follicle.getD k default := by
          rw [hk]
          exact hK
        have hrec : recAt F i = F.Follicle.getD k default := by
          unfold recAt
          rw [hkF]
        have hiN : i < numFollicles y para := List.mem_range.mp hi
        have hfsize : (yMut y para F).getD i 0 = 0 := by
          rw [getD_yMut,
            if_pos ⟨hp, hiN, by omega, Or.inr (Or.inl (by rw [hrec]; exact hD))⟩]
        rw [hfsize, hfr, Xof_sizeZero]
        have hcondFalse :
            ¬ declineCond 0 t (F.Follicle.getD k default) parafoll := by
          intro hc
          unfold declineCond at hc
          rcases hc with h | h | h | h | h | h
          · linarith
          · exact absurd (hD.symm.trans h) (by decide)
          · obtain ⟨-, -, h3⟩ := h
            exact absurd (hD.symm.trans h3) (by decide)
          · obtain ⟨-, -, h3⟩ := h
            exact absurd (hD.symm.trans h3) (by decide)
          · obtain ⟨h3, -⟩ := h
            exact absurd (hD.symm.trans h3) (by decide)
          · linarith
        rw [if_neg hcondFalse, if_pos hD]
        exact ⟨hA, hK⟩
      · split_ifs <;>
          first
            | exact ⟨hA, hK⟩
            | (refine ⟨hA, ?_⟩
               dsimp only
               rw [getD_set, if_neg fun hh => hk hh.1]
               exact hK)
    · simp only [loopBody]
      rw [if_neg hp]
      exact ⟨hA, hK⟩

/-- Witness for C3 (amended) at a concrete atretic record. -/
theorem ffq_C3_atreticSticky_witness :
    (FollicleFunction odeNine expOne 15 yEx 0 FsAtr paraN pfNeg
        parsEx).FsAfter.Follicle.getD 0 default = FsAtr.Follicle.getD 0 default :=
  ffq_C3_atreticSticky odeNine expOne 15 yEx 0 FsAtr paraN pfNeg parsEx 0
    (by decide) (by norm_num [pfNeg]) (by norm_num [FsAtr, pfNeg])

/-! Claim C8: test/calibration mode ignores the lifecycle tags. -/

lemma foldl_loopBody_test_congr (t fz p4 SV : ℚ) (y2 : List ℚ) (para : Para)
    (pf : Parafoll) (F1 F2 : Follicles) (h : para.para0 ≠ 0)
    (hFS : F1.ActiveFSHS = F2.ActiveFSHS) :
    ∀ (l : List ℕ) (f0 : List ℚ),
      ((l.foldl (loopBody t fz p4 SV y2 para pf) (f0, F1)).1)
        = ((l.foldl (loopBody t fz p4 SV y2 para pf) (f0, F2)).1)
  | [], f0 => rfl
  | i :: l, f0 => by
    simp only [List.foldl_cons]
    rw [loopBody_of_test _ _ _ _ _ _ _ _ _ h, loopBody_of_test _ _ _ _ _ _ _ _ _ h]
    dsimp only
    rw [hFS]
    exact foldl_loopBody_test_congr t fz p4 SV y2 para pf F1 F2 h hFS l _

/-- C8: with the test/calibration flag set, the returned derivative vector
ignores the lifecycle tags: two registries that agree on the active list,
the FSH sensitivities and every per-record field except `Destiny` produce
identical derivative vectors. -/
theorem ffq_C8_destinyInsensitive (odeModel : ℚ → List ℚ → Pars → ℚ → ℚ → List ℚ)
    (qexp : ℚ → ℚ) (t : ℚ) (y : List ℚ) (Tovu : ℚ) (F1 F2 : Follicles) (para : Para)
    (parafoll : Parafoll) (Par : Pars) (hmode : para.para0 = 1)
    (_hAct : F1.Active = F2.Active) (hFS : F1.ActiveFSHS = F2.ActiveFSHS)
    (_hlenF : F1.Follicle.length = F2.Follicle.length)
    (_hfields : ∀ k, (F1.Follicle.getD k default).Time = (F2.Follicle.getD k default).Time ∧
        (F1.Follicle.getD k default).TimeDecrease
          = (F2.Follicle.getD k default).TimeDecrease) :
    (FollicleFunction odeModel qexp t y Tovu F1 para parafoll Par).deriv
      = (FollicleFunction odeModel qexp t y Tovu F2 para parafoll Par).deriv := by
  have h0 : para.para0 ≠ 0 := by
    rw [hmode]
    decide
  have hx : xVec y para F1 = xVec y para F2 := by
    unfold xVec
    rw [yMut_of_test _ _ _ h0, yMut_of_test _ _ _ h0]
  unfold FollicleFunction
  dsimp only
  rw [yMut_of_test _ _ _ h0, yMut_of_test _ _ _ h0, hx]
  exact foldl_loopBody_test_congr _ _ _ _ _ _ _ _ _ h0 hFS _ _

/-- Witness for C8: a growing and an atretic registry, identical except
for the destiny tag, give the same test-mode derivative vector. -/
theorem ffq_C8_destinyInsensitive_witness :
    (FollicleFunction odeNine expOne 15 yEx 0 FsGrow paraT pfEx parsEx).deriv
      = (FollicleFunction odeNine expOne 15 yEx 0 FsAtr paraT pfEx parsEx).deriv :=
  ffq_C8_destinyInsensitive odeNine expOne 15 yEx 0 FsGrow FsAtr paraT pfEx parsEx
    rfl rfl rfl rfl (fun k => by cases k <;> exact ⟨rfl, rfl⟩)

/-! Claim C1: the evaluation is not free of side effects in normal mode. -/

/-- C1 (counterexample): a normal-mode evaluation mutates both the
registry (a growing follicle whose decline condition fires has its
`Destiny` rewritten) and the state vector (the slot of a declining
follicle is zeroed through the slice view). -/
theorem ffq_C1_counterexample :
    ((FollicleFunction odeNine expOne 15 yEx 0 FsGrow paraN pfBig
          parsEx).FsAfter.Follicle.getD 0 default).Destiny
        ≠ (FsGrow.Follicle.getD 0 default).Destiny ∧
    (FollicleFunction odeNine expOne 15 yEx 0 FsDecl paraN pfNeg parsEx).yAfter.getD 0 0
        ≠ yEx.getD 0 0 := by
  norm_num [FollicleFunction, numFollicles, yMut, zeroDeadFollicles, zeroOvulatedFollicles,
    recAt, xVec, pyGet, sumVof, loopBody, Xof, ffshOf, gammaOf, kappaOf, declineCond,
    P4level, E2level, SFof, piQ, yEx, paraN, pfBig, pfNeg, parsEx, FsGrow, FsDecl,
    odeNine, expOne, List.range_succ, List.mapIdx_cons, List.mapIdx_nil, List.replicate]

/-- C1 (amended): the frame of one evaluation.  In test mode neither the
state vector nor the registry changes.  In any mode the active list, the
FSH sensitivities, the registry size and the state-vector length are
preserved; non-follicle state slots are untouched; every state slot is
either untouched or zeroed; every record keeps its `Time` history and is
either untouched or exactly re-marked to destiny -2 with decline start set
to the current time. -/
theorem ffq_C1_frame (odeModel : ℚ → List ℚ → Pars → ℚ → ℚ → List ℚ) (qexp : ℚ → ℚ)
    (t : ℚ) (y : List ℚ) (Tovu : ℚ) (F : Follicles) (para : Para) (parafoll : Parafoll)
    (Par : Pars) (res : FFResult)
    (hres : res = FollicleFunction odeModel qexp t y Tovu F para parafoll Par) :
    (para.para0 = 1 → res.yAfter = y ∧ res.FsAfter = F) ∧
    res.FsAfter.Active = F.Active ∧
    res.FsAfter.ActiveFSHS = F.ActiveFSHS ∧
    res.FsAfter.Follicle.length = F.Follicle.length ∧
    res.yAfter.length = y.length ∧
    (∀ i, numFollicles y para ≤ i → res.yAfter.getD i 0 = y.getD i 0) ∧
    (∀ i, res.yAfter.getD i 0 = y.getD i 0 ∨ res.yAfter.getD i 0 = 0) ∧
    (∀ k, (res.FsAfter.Follicle.getD k default).Time
        = (F.Follicle.getD k default).Time ∧
      (res.FsAfter.Follicle.getD k default = F.Follicle.getD k default ∨
        ((res.FsAfter.Follicle.getD k default).Destiny = -2 ∧
         (res.FsAfter.Follicle.getD k default).TimeDecrease = t))) := by
  subst hres
  unfold FollicleFunction
  dsimp only
  have hreg := foldl_invariant
    (loopBody t (pyGet (yMut y para F) ((y.length : ℤ) - 15)) (P4level qexp t Tovu Par)
      (sumVof (xVec y para F) parafoll) (yMut y para F) para parafoll)
    (fun st => st.2.Active = F.Active ∧ st.2.ActiveFSHS = F.ActiveFSHS ∧
      st.2.Follicle.length = F.Follicle.length ∧
      ∀ k, (st.2.Follicle.getD k default).Time = (F.Follicle.getD k default).Time ∧
        (st.2.Follicle.getD k default = F.Follicle.getD k default ∨
          ((st.2.Follicle.getD k default).Destiny = -2 ∧
           (st.2.Follicle.getD k default).TimeDecrease = t)))
    (List.range (numFollicles y para))
    (odeModel t (yMut y para F) Par
        (E2level qexp t Tovu (SFof (xVec y para F) Par) Par) (P4level qexp t Tovu Par), F)
    ⟨rfl, rfl, rfl, fun k => ⟨rfl, Or.inl rfl⟩⟩ ?_
  · refine ⟨?_, hreg.1, hreg.2.1, hreg.2.2.1, length_yMut y para F, ?_, ?_, hreg.2.2.2⟩
    · intro h1
      have h0 : para.para0 ≠ 0 := by
        rw [h1]
        decide
      exact ⟨yMut_of_test _ _ _ h0, foldl_loopBody_snd_test _ _ _ _ _ _ _ _ _ h0⟩
    · intro i hiN
      rw [getD_yMut, if_neg fun hh => absurd hh.2.1 (by omega)]
    · intro i
      rw [getD_yMut]
      split_ifs
      · exact Or.inr rfl
      · exact Or.inl rfl
  · intro st i _ hst
    obtain ⟨hA, hFS, hL, hRec⟩ := hst
    by_cases hp : para.para0 = 0
    · simp only [loopBody]
      rw [if_pos hp]
      split_ifs with h1 h2
      · refine ⟨hA, hFS, ?_, ?_⟩
        · dsimp only
          rw [List.length_set]
          exact hL
        · intro k
          dsimp only
          rw [getD_set]
          split_ifs with hk
          · obtain ⟨hk1, -⟩ := hk
            rw [hk1]
            exact ⟨(hRec k).1, Or.inr ⟨rfl, rfl⟩⟩
          · exact hRec k
      · refine ⟨hA, hFS, ?_, ?_⟩
        · dsimp only
          rw [List.length_set]
          exact hL
        · intro k
          dsimp only
          rw [getD_set]
          split_ifs with hk
          · obtain ⟨hk1, -⟩ := hk
            rw [hk1]
            exact hRec k
          · exact hRec k
      · exact ⟨hA, hFS, hL, hRec⟩
      · exact ⟨hA, hFS, hL, hRec⟩
    · simp only [loopBody]
      rw [if_neg hp]
      exact ⟨hA, hFS, hL, hRec⟩

/-- Witness for C1 (amended), projected at a concrete normal-mode call:
the record was either untouched or re-marked with decline start 15, and
the record keeps its sample history. -/
theorem ffq_C1_frame_witness :
    ((FollicleFunction odeNine expOne 15 yEx 0 FsGrow paraN pfBig
          parsEx).FsAfter.Follicle.getD 0 default).Time
      = (FsGrow.Follicle.getD 0 default).Time ∧
    ((FollicleFunction odeNine expOne 15 yEx 0 FsGrow paraN pfBig
          parsEx).FsAfter.Follicle.getD 0 default = FsGrow.Follicle.getD 0 default ∨
      (((FollicleFunction odeNine expOne 15 yEx 0 FsGrow paraN pfBig
            parsEx).FsAfter.Follicle.getD 0 default).Destiny = -2 ∧
       ((FollicleFunction odeNine expOne 15 yEx 0 FsGrow paraN pfBig
            parsEx).FsAfter.Follicle.getD 0 default).TimeDecrease = 15)) :=
  (ffq_C1_frame odeNine expOne 15 yEx 0 FsGrow paraN pfBig parsEx
    (FollicleFunction odeNine expOne 15 yEx 0 FsGrow paraN pfBig parsEx)
    rfl).2.2.2.2.2.2.2 0

end GynCycle
